import Mathlib

/-!
Verification of the crypto terminal authentication service
(`src/auth.py`, `src/main.py`, `src/database/models.py`).

The service is a FastAPI app with three operations: `register_user`
(POST /auth/register), `login_user` (POST /auth/login) and
`check_client_version` (POST /sec/check_version), backed by a single
`users` table.  We embed the handler logic of `auth.py` and `main.py`
shallowly: the store is a list of rows, the HTTP layer's outcomes are an
`Except` over an error type, Python truthiness of strings is made
explicit, and SQLAlchemy session commit/rollback is modelled by an
explicit commit outcome (success or a uniqueness `IntegrityError`).

A note on the two schema variants.  `auth.py` is written against a user
row carrying `mexc_api_key` / `mexc_api_secret` (the exchange-credential
variant of the data model), while `src/database/models.py` declares the
`users` table with a `secret_key` column instead (the secret-key
variant).  We embed both:
* `User` below is the row shape `auth.py` reads and writes;
* `DeclaredUser` is the row shape `models.py` declares, and a separate
  development (`create_db_user_declared`, `register_user_declared`)
  follows what `create_db_user` does when run against that declared
  model, where the SQLAlchemy declarative constructor rejects the
  unknown keyword arguments.
-/

namespace CryptoTerminal

/-! ## Errors and Python truthiness -/

/-- An error surfaced by an endpoint: either a request-validation failure
(pydantic rejects the body before the handler runs, FastAPI answers 422)
or an `HTTPException` raised by the handler with a status code and a
detail string. -/
inductive ApiError where
  | validation
  | http (status_code : Nat) (detail : String)
deriving Repr, DecidableEq

/-- Python truthiness of an optional string column value: `None` and the
empty string are falsy, every other string is truthy.  `not x` in
`auth.py` is `pyFalsy x` here. -/
def pyFalsy : Option String → Bool
  | none => true
  | some s => s == ""

/-! ## Data model used by `auth.py` (exchange-credential variant)

Modelled from the spec: the exchange-credential variant of the user row
(`api_key` + `api_secret` pair, spec section 3 variant (a)) is the shape
`auth.py` reads (`user.mexc_api_key`, `user.mexc_api_secret`) and
constructs, but the `models.py` in the repository declares the
secret-key variant instead, so this row type is taken from the spec's
description of variant (a).  The credential columns are optional
strings so that a row with no linked key (`NULL`) is representable. -/

structure User where
  id : Nat
  login : String
  password : String
  mexc_api_key : Option String
  mexc_api_secret : Option String
deriving Repr, DecidableEq

/-- The `users` table as `auth.py` uses it: a list of rows. -/
abbrev Store := List User

/-- `get_user_by_login` (auth.py): `select(User).filter(User.login == login)`,
then `scalar_one_or_none()` — the first row whose `login` equals the
argument, if any. -/
def get_user_by_login (db : Store) (login : String) : Option User :=
  db.find? (fun u => u.login == login)

/-! ## Request schemas (auth.py) -/

/-- `UserCreateSchema` (auth.py): the parsed registration body.  All four
fields are required strings. -/
structure UserCreateSchema where
  login : String
  password : String
  mexc_api_key : String
  mexc_api_secret : String
deriving Repr, DecidableEq

/-- The pydantic field constraints on `UserCreateSchema`:
`login` has `min_length=3, max_length=50`, `password` has `min_length=6`;
the two MEXC fields have no length constraint. -/
def validUserCreate (d : UserCreateSchema) : Bool :=
  decide (3 ≤ d.login.length) && decide (d.login.length ≤ 50) &&
    decide (6 ≤ d.password.length)

/-- A raw registration body before pydantic parsing: each field may be
missing. -/
structure RawRegisterBody where
  login : Option String
  password : Option String
  mexc_api_key : Option String
  mexc_api_secret : Option String
deriving Repr, DecidableEq

/-- Pydantic validation of the registration body: every field must be
present (`Field(...)`) and the length constraints must hold; otherwise
the request is rejected with a validation error before the handler
runs. -/
def validateUserCreate (raw : RawRegisterBody) : Except ApiError UserCreateSchema :=
  match raw.login, raw.password, raw.mexc_api_key, raw.mexc_api_secret with
  | some l, some p, some k, some s =>
      let d : UserCreateSchema := ⟨l, p, k, s⟩
      if validUserCreate d then .ok d else .error .validation
  | _, _, _, _ => .error .validation

/-- `UserApiKeysSchema` (auth.py): the credential part of a response. -/
structure UserApiKeysSchema where
  mexc_api_key : String
  mexc_api_secret : String
deriving Repr, DecidableEq

/-- `LoginResponseSchema` (auth.py): the success payload of both
`/auth/register` and `/auth/login`. -/
structure LoginResponseSchema where
  login : String
  api_keys : UserApiKeysSchema
deriving Repr, DecidableEq

/-! ## Registration (auth.py) -/

/-- The store's verdict on committing a staged insert: either the commit
succeeds, or the store rejects it with a uniqueness-constraint
`IntegrityError` (the exception type `create_db_user` catches). -/
inductive CommitOutcome where
  | success
  | integrityError
deriving Repr, DecidableEq

/-- The row `create_db_user` stages: `User(login=..., password=...,
mexc_api_key=..., mexc_api_secret=...)`, with the server-assigned id. -/
def mkDbUser (nextId : Nat) (d : UserCreateSchema) : User :=
  { id := nextId
    login := d.login
    password := d.password
    mexc_api_key := some d.mexc_api_key
    mexc_api_secret := some d.mexc_api_secret }

/-- `create_db_user` (auth.py): stages the new row with `db.add` and
commits.  On success the committed store has the new row appended.  On an
`IntegrityError` the session is rolled back — the staged row is
discarded, so the store is returned unchanged — and the handler raises
`HTTPException(409, "Login for the service already registered.")`.
The commit outcome is a parameter: sequentially it is determined by the
store (`storeCommitOutcome`), while a concurrent registration that wins
the race can make the commit fail although the pre-check passed. -/
def create_db_user (db : Store) (d : UserCreateSchema) (nextId : Nat)
    (outcome : CommitOutcome) : Except ApiError User × Store :=
  let db_user := mkDbUser nextId d
  match outcome with
  | .success => (.ok db_user, db ++ [db_user])
  | .integrityError =>
      (.error (.http 409 "Login for the service already registered."), db)

/-- The sequential commit verdict: the `users` table has a unique
constraint on `login` (and the fresh `id` cannot collide), so an
uninterfered commit fails exactly when some committed row already has
the staged row's login. -/
def storeCommitOutcome (db : Store) (u : User) : CommitOutcome :=
  if db.any (fun r => r.login == u.login) then .integrityError else .success

/-- `register_user` (auth.py), parameterised by the commit outcome:
pre-checks `get_user_by_login` and raises
`HTTPException(409, "This login is already taken for the terminal.")` if
a row exists; otherwise runs `create_db_user` and mirrors the created
row back as a `LoginResponseSchema`. -/
def register_user_core (db : Store) (d : UserCreateSchema) (nextId : Nat)
    (outcome : CommitOutcome) : Except ApiError LoginResponseSchema × Store :=
  match get_user_by_login db d.login with
  | some _ =>
      (.error (.http 409 "This login is already taken for the terminal."), db)
  | none =>
      match create_db_user db d nextId outcome with
      | (.error e, db2) => (.error e, db2)
      | (.ok u, db2) =>
          (.ok { login := u.login
                 api_keys := { mexc_api_key := u.mexc_api_key.getD ""
                               mexc_api_secret := u.mexc_api_secret.getD "" } },
           db2)

/-- `register_user` run sequentially (no concurrent interference): the
commit outcome is the store's own verdict on the staged row. -/
def register_user (db : Store) (d : UserCreateSchema) (nextId : Nat) :
    Except ApiError LoginResponseSchema × Store :=
  register_user_core db d nextId (storeCommitOutcome db (mkDbUser nextId d))

/-- The `/auth/register` endpoint: pydantic validation of the raw body,
then the handler. -/
def register_endpoint (db : Store) (raw : RawRegisterBody) (nextId : Nat) :
    Except ApiError LoginResponseSchema × Store :=
  match validateUserCreate raw with
  | .error e => (.error e, db)
  | .ok d => register_user db d nextId

/-! ## Login (auth.py) -/

/-- `login_user` (auth.py): looks the user up by login; `if not user or
not (user.password == password)` answers 401 with
"Incorrect terminal login or password"; then `if not user.mexc_api_key
or not user.mexc_api_secret` (Python truthiness: `None` or `""`) answers
404; otherwise returns the login and the stored keys.  On the success
path both credential fields are non-falsy, hence in particular not
`None`, so reading them with a `""` default is exact. -/
def login_user (db : Store) (login password : String) :
    Except ApiError LoginResponseSchema :=
  match get_user_by_login db login with
  | none => .error (.http 401 "Incorrect terminal login or password")
  | some user =>
      if !(user.password == password) then
        .error (.http 401 "Incorrect terminal login or password")
      else if pyFalsy user.mexc_api_key || pyFalsy user.mexc_api_secret then
        .error (.http 404
          "MEXC API keys not found for this user. Please register them or contact support.")
      else
        .ok { login := user.login
              api_keys := { mexc_api_key := user.mexc_api_key.getD ""
                            mexc_api_secret := user.mexc_api_secret.getD "" } }

/-! ## The declared schema (src/database/models.py) and `create_db_user`
run against it

`models.py` declares the `users` table with columns `id`, `login`
(unique, non-nullable), `password` (non-nullable) and `secret_key`
(unique, non-nullable, indexed) — the secret-key variant of the data
model.  `auth.py` imports this `User` class, so as the repository
stands, `create_db_user` calls the declarative constructor with keyword
arguments `mexc_api_key` / `mexc_api_secret` that are not attributes of
the declared class. -/

/-- A row of the `users` table as `models.py` declares it. -/
structure DeclaredUser where
  id : Nat
  login : String
  password : String
  secret_key : String
deriving Repr, DecidableEq

/-- The attribute names of the declared `User` model class
(`models.py`): its mapped columns. -/
def userModelAttrs : List String :=
  ["id", "login", "password", "secret_key"]

/-- The keyword arguments `create_db_user` (auth.py) passes to
`User(...)`, in order, with their values taken from the validated
body. -/
def createDbUserKwargs (d : UserCreateSchema) : List (String × String) :=
  [("login", d.login), ("password", d.password),
   ("mexc_api_key", d.mexc_api_key), ("mexc_api_secret", d.mexc_api_secret)]

/-- A Python exception relevant to `create_db_user` run against the
declared model: the `TypeError` the SQLAlchemy declarative constructor
raises at an invalid keyword argument (carrying that argument's name),
or the store's `IntegrityError`. -/
inductive PyExn where
  | typeErrorInvalidKwarg (kwarg : String)
  | integrityError
deriving Repr, DecidableEq

/-- The SQLAlchemy declarative constructor: walks the keyword arguments
in order and raises `TypeError("... is an invalid keyword argument ...")`
at the first one that is not an attribute of the model class; otherwise
the instance holds exactly the assigned attributes. -/
def declarativeInit (attrs : List String) (kwargs : List (String × String)) :
    Except PyExn (List (String × String)) :=
  match kwargs.find? (fun kv => !attrs.contains kv.1) with
  | some kv => .error (.typeErrorInvalidKwarg kv.1)
  | none => .ok kwargs

/-- The outcome of a registration attempt run against the declared
schema. -/
inductive DeclaredRegOutcome where
  | created (assigned : List (String × String))
  | httpConflict (detail : String)
  | unhandledException (e : PyExn)
deriving Repr, DecidableEq

/-- `create_db_user` (auth.py) run against the declared `User` model of
`models.py`.  The `User(...)` call stands before the `try:` block, so a
`TypeError` from the constructor escapes the handler as an unhandled
exception (a generic server error).  Were an instance constructed, the
commit would reject a row leaving the non-nullable `secret_key` column
unassigned with an `IntegrityError`, which the `except` branch turns
into the 409. -/
def create_db_user_declared (d : UserCreateSchema) : DeclaredRegOutcome :=
  match declarativeInit userModelAttrs (createDbUserKwargs d) with
  | .error e => .unhandledException e
  | .ok assigned =>
      if assigned.any (fun kv => kv.1 == "secret_key") then .created assigned
      else .httpConflict "Login for the service already registered."

/-- Lookup by login in the declared store (`get_user_by_login` against
`models.py` rows). -/
def get_declared_user_by_login (db : List DeclaredUser) (login : String) :
    Option DeclaredUser :=
  db.find? (fun u => u.login == login)

/-- `register_user` (auth.py) run against the declared schema: the
pre-check on `login` answers the 409 for a taken login; otherwise the
outcome is `create_db_user`'s against the declared model. -/
def register_user_declared (db : List DeclaredUser) (d : UserCreateSchema) :
    DeclaredRegOutcome :=
  match get_declared_user_by_login db d.login with
  | some _ => .httpConflict "This login is already taken for the terminal."
  | none => create_db_user_declared d

/-! ## The secret-key schema variant's registration

Modelled from the spec: the repository's `auth.py` implements the
exchange-credential variant's handler, so the secret-key variant's
registration handler (spec section 4.1: validate — `secret_key` has a
minimum length of 10 —, pre-check `login`, pre-check `secret_key`
existence, then insert, the store of `models.py` enforcing uniqueness of
both `login` and `secret_key`) is not in the source files and is taken
from the spec's words. -/

/-- The parsed registration body of the secret-key variant. -/
structure SecretKeyCreateSchema where
  login : String
  password : String
  secret_key : String
deriving Repr, DecidableEq

/-- The secret-key variant's field constraints (spec section 3):
`login` 3–50 characters, `password` at least 6, `secret_key` at least
10. -/
def validSecretKeyCreate (d : SecretKeyCreateSchema) : Bool :=
  decide (3 ≤ d.login.length) && decide (d.login.length ≤ 50) &&
    decide (6 ≤ d.password.length) && decide (10 ≤ d.secret_key.length)

/-- Lookup by `secret_key` in the declared store. -/
def get_declared_user_by_secret (db : List DeclaredUser) (sk : String) :
    Option DeclaredUser :=
  db.find? (fun u => u.secret_key == sk)

/-- The outcome of a secret-key variant registration. -/
inductive SecretKeyRegResult where
  | created (login secret_key : String)
  | validationError
  | conflict (detail : String)
deriving Repr, DecidableEq

/-- Modelled from the spec: the secret-key variant's registration
(spec section 4.1) — validation first, then the `login` pre-check
(Conflict "login already registered"), then the `secret_key` existence
check (Conflict "secret key already in use"), then the insert; run
sequentially the insert succeeds, both uniqueness pre-checks having
passed against the same store the commit sees. -/
def register_secret_key (db : List DeclaredUser) (d : SecretKeyCreateSchema)
    (nextId : Nat) : SecretKeyRegResult × List DeclaredUser :=
  if !validSecretKeyCreate d then (.validationError, db)
  else if (get_declared_user_by_login db d.login).isSome then
    (.conflict "login already registered", db)
  else if (get_declared_user_by_secret db d.secret_key).isSome then
    (.conflict "secret key already in use", db)
  else
    (.created d.login d.secret_key,
     db ++ [{ id := nextId, login := d.login, password := d.password,
              secret_key := d.secret_key }])

/-- Uniqueness of `secret_key` across the rows of a declared store
(the invariant the `unique=True` column constraint maintains). -/
def secretKeysUnique (db : List DeclaredUser) : Prop :=
  (db.map (fun u => u.secret_key)).Nodup

instance (db : List DeclaredUser) : Decidable (secretKeysUnique db) := by
  unfold secretKeysUnique; infer_instance

/-! ## Version check (src/main.py) -/

/-- The server-side version configuration (main.py): the expected client
version (`EXPECTED_CLIENT_VERSION`, default "1.0.3") and the server's
own API version (`API_SERVICE_VERSION`, default "1.2.5"). -/
structure VersionConfig where
  expected_client_version : String
  api_service_version : String
deriving Repr, DecidableEq

/-- The success body of `/sec/check_version` (main.py). -/
structure VersionOkResponse where
  status : String
  message : String
  server_api_version : String
deriving Repr, DecidableEq

/-- `check_client_version` (main.py): exact string comparison of the
submitted version with the configured expected one; on a match, the ok
acknowledgment carrying the server's own API version; otherwise
`HTTPException(426, ...)` whose detail names both versions. -/
def check_client_version (cfg : VersionConfig) (client_version : String) :
    Except ApiError VersionOkResponse :=
  if client_version == cfg.expected_client_version then
    .ok { status := "ok"
          message := "Client version is up to date."
          server_api_version := cfg.api_service_version }
  else
    .error (.http 426
      ("Client version '" ++ client_version ++ "' is outdated. Expected version: '"
        ++ cfg.expected_client_version ++ "'. Please update the application."))

/-! ## Theorems -/

/-- C3: for every store and every registration body that validates to a
login already present in the store, registration fails with the
pre-check's 409 Conflict ("This login is already taken for the
terminal.") regardless of the other field values, and the store is not
mutated. -/
theorem register_taken_login_conflict (db : Store) (raw : RawRegisterBody)
    (d : UserCreateSchema) (u : User) (nextId : Nat)
    (hparse : validateUserCreate raw = .ok d)
    (hpresent : get_user_by_login db d.login = some u) :
    register_endpoint db raw nextId
      = (.error (.http 409 "This login is already taken for the terminal."), db) := by
  simp [register_endpoint, hparse, register_user, register_user_core, hpresent]

/-- Witness for C3: a store holding alice; registering alice again with
different password and keys answers the 409 and leaves the store as it
was. -/
theorem register_taken_login_conflict_witness :
    register_endpoint [⟨1, "alice", "secret1", some "K", some "S"⟩]
        ⟨some "alice", some "other1", some "K2", some "S2"⟩ 2
      = (.error (.http 409 "This login is already taken for the terminal."),
         [⟨1, "alice", "secret1", some "K", some "S"⟩]) :=
  register_taken_login_conflict [⟨1, "alice", "secret1", some "K", some "S"⟩]
    ⟨some "alice", some "other1", some "K2", some "S2"⟩
    ⟨"alice", "other1", "K2", "S2"⟩ ⟨1, "alice", "secret1", some "K", some "S"⟩ 2
    rfl rfl

/-- C4: a login request whose login is absent from the store and a login
request whose login is present but whose password differs from the
stored one fail with the same 401 Unauthorized error carrying the same
detail string, so the two failure causes are observationally
indistinguishable. -/
theorem login_failures_indistinguishable (db : Store) (l1 p1 l2 p2 : String)
    (u : User)
    (h1 : get_user_by_login db l1 = none)
    (h2 : get_user_by_login db l2 = some u)
    (h3 : u.password ≠ p2) :
    login_user db l1 p1 = login_user db l2 p2 ∧
    login_user db l1 p1
      = .error (.http 401 "Incorrect terminal login or password") := by
  have hpw : (u.password == p2) = false := beq_eq_false_iff_ne.mpr h3
  constructor <;> simp [login_user, h1, h2, hpw]

/-- Witness for C4: against a store holding alice, logging in as the
unknown bob and logging in as alice with a wrong password produce the
same 401 error. -/
theorem login_failures_indistinguishable_witness :
    login_user [⟨1, "alice", "secret1", some "K", some "S"⟩] "bob" "whatever"
      = login_user [⟨1, "alice", "secret1", some "K", some "S"⟩] "alice" "wrong1" ∧
    login_user [⟨1, "alice", "secret1", some "K", some "S"⟩] "bob" "whatever"
      = .error (.http 401 "Incorrect terminal login or password") :=
  login_failures_indistinguishable [⟨1, "alice", "secret1", some "K", some "S"⟩]
    "bob" "whatever" "alice" "wrong1" ⟨1, "alice", "secret1", some "K", some "S"⟩
    rfl rfl (by decide)

/-- C9: for a stored user matched by login and password whose record has
no linked exchange API key or no API secret (a `NULL` column), login
fails with the 404 NotFound error, whose status and detail differ from
the 401 Unauthorized error, rather than succeeding with empty
credential fields. -/
theorem login_missing_keys_not_found (db : Store) (l p : String) (u : User)
    (h1 : get_user_by_login db l = some u)
    (h2 : u.password = p)
    (h3 : u.mexc_api_key = none ∨ u.mexc_api_secret = none) :
    login_user db l p
      = .error (.http 404
          "MEXC API keys not found for this user. Please register them or contact support.") ∧
    ApiError.http 404
        "MEXC API keys not found for this user. Please register them or contact support."
      ≠ ApiError.http 401 "Incorrect terminal login or password" := by
  refine ⟨?_, by decide⟩
  rcases h3 with h3 | h3 <;> simp [login_user, h1, h2, h3, pyFalsy]

/-- Witness for C9: a stored user with no API key at all; login with the
right password answers the 404. -/
theorem login_missing_keys_not_found_witness :
    login_user [⟨1, "carol", "pw1234", none, some "S"⟩] "carol" "pw1234"
      = .error (.http 404
          "MEXC API keys not found for this user. Please register them or contact support.") ∧
    ApiError.http 404
        "MEXC API keys not found for this user. Please register them or contact support."
      ≠ ApiError.http 401 "Incorrect terminal login or password" :=
  login_missing_keys_not_found [⟨1, "carol", "pw1234", none, some "S"⟩]
    "carol" "pw1234" ⟨1, "carol", "pw1234", none, some "S"⟩ rfl rfl (Or.inl rfl)

/-- C10: for a stored user matched by login and password one of whose
credential columns holds the empty string (present, not `NULL`), login
fails with the same 404 NotFound error — the handler's truthiness test
does not distinguish an empty-string credential from a missing one — so
an empty-string credential is never returned by login. -/
theorem login_empty_keys_not_found (db : Store) (l p : String) (u : User)
    (h1 : get_user_by_login db l = some u)
    (h2 : u.password = p)
    (h3 : u.mexc_api_key = some "" ∨ u.mexc_api_secret = some "") :
    login_user db l p
      = .error (.http 404
          "MEXC API keys not found for this user. Please register them or contact support.") ∧
    ∀ r, login_user db l p ≠ .ok r := by
  have h404 : login_user db l p
      = .error (.http 404
          "MEXC API keys not found for this user. Please register them or contact support.") := by
    rcases h3 with h3 | h3 <;> simp [login_user, h1, h2, h3, pyFalsy]
  refine ⟨h404, fun r hok => ?_⟩
  rw [h404] at hok
  exact Except.noConfusion hok

/-- Witness for C10: a stored user whose API key column holds `""`;
login with the right password answers the 404 and returns no payload. -/
theorem login_empty_keys_not_found_witness :
    login_user [⟨1, "dave", "pw1234", some "", some "S"⟩] "dave" "pw1234"
      = .error (.http 404
          "MEXC API keys not found for this user. Please register them or contact support.") ∧
    ∀ r, login_user [⟨1, "dave", "pw1234", some "", some "S"⟩] "dave" "pw1234" ≠ .ok r :=
  login_empty_keys_not_found [⟨1, "dave", "pw1234", some "", some "S"⟩]
    "dave" "pw1234" ⟨1, "dave", "pw1234", some "", some "S"⟩ rfl rfl (Or.inl rfl)

/-- C1 counterexample: the registration body with login "alice",
password "secret1" and an empty API key passes validation (the MEXC
fields carry no length constraint), registration succeeds and mirrors
the empty credential back verbatim, but the immediately following login
with the same login and password fails with the 404 — it does not
succeed and return the credential. -/
theorem register_login_roundtrip_cex :
    validUserCreate ⟨"alice", "secret1", "", "S"⟩ = true ∧
    (register_user [] ⟨"alice", "secret1", "", "S"⟩ 1).1
      = .ok ⟨"alice", ⟨"", "S"⟩⟩ ∧
    login_user (register_user [] ⟨"alice", "secret1", "", "S"⟩ 1).2 "alice" "secret1"
      = .error (.http 404
          "MEXC API keys not found for this user. Please register them or contact support.") :=
  ⟨rfl, rfl, rfl⟩

/-- C1 (amended): for every validated registration that succeeds, the
response mirrors the submitted login and credential payload verbatim,
and — provided both credential fields are nonempty — an immediately
following login with the same login and password succeeds and returns
exactly the same payload. -/
theorem register_login_roundtrip (db : Store) (d : UserCreateSchema)
    (nextId : Nat) (resp : LoginResponseSchema) (db2 : Store)
    (hvalid : validUserCreate d = true)
    (hreg : register_user db d nextId = (.ok resp, db2)) :
    resp = ⟨d.login, ⟨d.mexc_api_key, d.mexc_api_secret⟩⟩ ∧
    (d.mexc_api_key ≠ "" → d.mexc_api_secret ≠ "" →
      login_user db2 d.login d.password = .ok resp) := by
  cases habs : get_user_by_login db d.login with
  | some u =>
      rw [register_user, register_user_core] at hreg
      rw [habs] at hreg
      simp at hreg
  | none =>
      have hnone : db.find? (fun r => r.login == d.login) = none := habs
      have hany : (db.any fun r => r.login == d.login) = false := by
        rw [List.any_eq_false]
        intro x hx
        simpa using List.find?_eq_none.mp hnone x hx
      have hout : storeCommitOutcome db (mkDbUser nextId d) = .success := by
        simp [storeCommitOutcome, mkDbUser, hany]
      rw [register_user, hout, register_user_core] at hreg
      rw [habs] at hreg
      simp [create_db_user, mkDbUser] at hreg
      obtain ⟨hresp, hdb2⟩ := hreg
      subst hdb2
      constructor
      · exact hresp.symm
      · intro hk hs
        have hk2 : (d.mexc_api_key == "") = false := beq_eq_false_iff_ne.mpr hk
        have hs2 : (d.mexc_api_secret == "") = false := beq_eq_false_iff_ne.mpr hs
        rw [← hresp]
        simp [login_user, get_user_by_login, List.find?_append, hnone, pyFalsy,
          hk2, hs2]

/-- Witness for C1: registering bob with nonempty keys and immediately
logging in returns exactly the registered login and keys. -/
theorem register_login_roundtrip_witness :
    validUserCreate ⟨"bob", "hunter22", "K", "S"⟩ = true ∧
    login_user (register_user [] ⟨"bob", "hunter22", "K", "S"⟩ 1).2 "bob" "hunter22"
      = .ok ⟨"bob", ⟨"K", "S"⟩⟩ :=
  ⟨rfl,
   (register_login_roundtrip [] ⟨"bob", "hunter22", "K", "S"⟩ 1 ⟨"bob", ⟨"K", "S"⟩⟩
      (register_user [] ⟨"bob", "hunter22", "K", "S"⟩ 1).2 rfl rfl).2
     (by decide) (by decide)⟩

/-- C2 counterexample: a registration that passes validation, with a
login absent from the store, run against the schema `models.py`
declares: the declarative constructor raises a TypeError at the unknown
keyword argument `mexc_api_key` before any insert, an exception the
handler does not catch — the outcome is not the 409 Conflict the claim
states. -/
theorem register_declared_schema_cex :
    validUserCreate ⟨"alice", "secret1", "K", "S"⟩ = true ∧
    get_declared_user_by_login [] "alice" = none ∧
    register_user_declared [] ⟨"alice", "secret1", "K", "S"⟩
      = .unhandledException (.typeErrorInvalidKwarg "mexc_api_key") ∧
    register_user_declared [] ⟨"alice", "secret1", "K", "S"⟩
      ≠ .httpConflict "Login for the service already registered." :=
  ⟨rfl, rfl, rfl, by decide⟩

/-- C2 (amended): for every registration input that passes field
validation and whose login is not already present in the declared store,
registration against the declared schema never succeeds — but it fails
with an unhandled TypeError from the declarative constructor (the
success branch and the insert are both unreachable), not with the 409
IntegrityError Conflict. -/
theorem register_declared_schema_typeerror (db : List DeclaredUser)
    (d : UserCreateSchema)
    (hvalid : validUserCreate d = true)
    (habs : get_declared_user_by_login db d.login = none) :
    register_user_declared db d
      = .unhandledException (.typeErrorInvalidKwarg "mexc_api_key") ∧
    ∀ a, register_user_declared db d ≠ .created a := by
  have hmain : register_user_declared db d
      = .unhandledException (.typeErrorInvalidKwarg "mexc_api_key") := by
    unfold register_user_declared
    rw [habs]
    exact rfl
  refine ⟨hmain, fun a ha => ?_⟩
  rw [hmain] at ha
  exact DeclaredRegOutcome.noConfusion ha

/-- Witness for C2 (amended): registering frank against the declared
schema raises the TypeError. -/
theorem register_declared_schema_typeerror_witness :
    register_user_declared [] ⟨"frank", "secret1", "K", "S"⟩
      = .unhandledException (.typeErrorInvalidKwarg "mexc_api_key") :=
  (register_declared_schema_typeerror [] ⟨"frank", "secret1", "K", "S"⟩ rfl rfl).1

/-- C5: a registration body with a missing field, a login shorter than 3
or longer than 50 characters, or a password shorter than 6 characters is
rejected with a validation error; the store is not touched — it is left
unchanged and the outcome is the same against every store. -/
theorem register_invalid_input_rejected (db db2 : Store)
    (raw : RawRegisterBody) (n1 n2 : Nat)
    (h : raw.login = none ∨ raw.password = none ∨
         raw.mexc_api_key = none ∨ raw.mexc_api_secret = none ∨
         (∃ l, raw.login = some l ∧ (l.length < 3 ∨ 50 < l.length)) ∨
         (∃ p, raw.password = some p ∧ p.length < 6)) :
    (register_endpoint db raw n1).1 = .error .validation ∧
    (register_endpoint db raw n1).2 = db ∧
    (register_endpoint db raw n1).1 = (register_endpoint db2 raw n2).1 := by
  have hval : validateUserCreate raw = .error .validation := by
    obtain ⟨lo, pw, ko, sc⟩ := raw
    cases lo with
    | none => rfl
    | some l =>
      cases pw with
      | none => rfl
      | some p =>
        cases ko with
        | none => rfl
        | some k =>
          cases sc with
          | none => rfl
          | some s =>
            rcases h with h | h | h | h | ⟨l2, hl2, hlen⟩ | ⟨p2, hp2, hlen⟩
            · exact Option.noConfusion h
            · exact Option.noConfusion h
            · exact Option.noConfusion h
            · exact Option.noConfusion h
            · injection hl2 with hl2e
              subst hl2e
              have hbad : validUserCreate ⟨l, p, k, s⟩ = false := by
                simp [validUserCreate]
                omega
              simp [validateUserCreate, hbad]
            · injection hp2 with hp2e
              subst hp2e
              have hbad : validUserCreate ⟨l, p, k, s⟩ = false := by
                simp [validUserCreate]
                omega
              simp [validateUserCreate, hbad]
  refine ⟨?_, ?_, ?_⟩ <;> simp [register_endpoint, hval]

/-- Witness for C5: a two-character login is rejected with a validation
error against any store, and an empty store stays empty. -/
theorem register_invalid_input_rejected_witness :
    (register_endpoint [] ⟨some "al", some "secret1", some "K", some "S"⟩ 1).1
      = .error .validation ∧
    (register_endpoint [] ⟨some "al", some "secret1", some "K", some "S"⟩ 1).2
      = [] ∧
    (register_endpoint [] ⟨some "al", some "secret1", some "K", some "S"⟩ 1).1
      = (register_endpoint [⟨1, "alice", "secret1", some "K", some "S"⟩]
          ⟨some "al", some "secret1", some "K", some "S"⟩ 7).1 :=
  register_invalid_input_rejected [] [⟨1, "alice", "secret1", some "K", some "S"⟩]
    ⟨some "al", some "secret1", some "K", some "S"⟩ 1 7
    (Or.inr (Or.inr (Or.inr (Or.inr (Or.inl ⟨"al", rfl, Or.inl (by decide)⟩)))))

/-- C6 counterexample: an insert rejected by the store where a re-query
by login finds no row (a race lost on some other constraint) is still
answered with the login-conflict detail — identical to the error
produced when the lookup does find a row.  `create_db_user` performs no
re-query and reports no generic constraint Conflict in the
lookup-finds-nothing case. -/
theorem create_db_user_no_requery_cex :
    (create_db_user [] ⟨"bob", "secret1", "K", "S"⟩ 1 .integrityError).1
      = .error (.http 409 "Login for the service already registered.") ∧
    get_user_by_login [] "bob" = none ∧
    (create_db_user [⟨1, "bob", "pw1234", some "K2", some "S2"⟩]
        ⟨"bob", "secret1", "K", "S"⟩ 2 .integrityError).1
      = (create_db_user [] ⟨"bob", "secret1", "K", "S"⟩ 1 .integrityError).1 ∧
    get_user_by_login [⟨1, "bob", "pw1234", some "K2", some "S2"⟩] "bob"
      = some ⟨1, "bob", "pw1234", some "K2", some "S2"⟩ :=
  ⟨rfl, rfl, rfl, rfl⟩

/-- C6 (amended): when the store rejects the insert with a
uniqueness-constraint IntegrityError although the pre-check passed, the
operation rolls back and reports the login Conflict ("Login for the
service already registered.") unconditionally, performing no re-query;
the overall result is a 409 Conflict and the store is left unchanged. -/
theorem register_integrity_error_conflict (db : Store) (d : UserCreateSchema)
    (nextId : Nat)
    (hpre : get_user_by_login db d.login = none) :
    register_user_core db d nextId .integrityError
      = (.error (.http 409 "Login for the service already registered."), db) := by
  unfold register_user_core
  rw [hpre]
  exact rfl

/-- Witness for C6 (amended): a lost race on the empty store answers the
409 and leaves the store empty. -/
theorem register_integrity_error_conflict_witness :
    register_user_core [] ⟨"eve", "secret1", "K", "S"⟩ 1 .integrityError
      = (.error (.http 409 "Login for the service already registered."), []) :=
  register_integrity_error_conflict [] ⟨"eve", "secret1", "K", "S"⟩ 1 rfl

/-- C7 counterexample: two valid registration requests with the same
secret key and different logins where the first fails on a taken login:
the second then succeeds instead of failing with a Conflict — the claim
does not hold for every store state and every such pair of requests. -/
theorem secret_key_unique_cex :
    validSecretKeyCreate ⟨"alice", "password2", "NEWSECRETKEY9"⟩ = true ∧
    validSecretKeyCreate ⟨"bob", "password3", "NEWSECRETKEY9"⟩ = true ∧
    ("alice" : String) ≠ "bob" ∧
    (register_secret_key [⟨1, "alice", "secret1", "SECRETKEY123"⟩]
        ⟨"alice", "password2", "NEWSECRETKEY9"⟩ 2).1
      = .conflict "login already registered" ∧
    (register_secret_key
        (register_secret_key [⟨1, "alice", "secret1", "SECRETKEY123"⟩]
          ⟨"alice", "password2", "NEWSECRETKEY9"⟩ 2).2
        ⟨"bob", "password3", "NEWSECRETKEY9"⟩ 3).1
      = .created "bob" "NEWSECRETKEY9" :=
  ⟨rfl, rfl, by decide, rfl, rfl⟩

/-- C7 (amended): in the secret-key variant, for every store and every
two valid registration requests with the same secret key but different
logins, if the first registration succeeds then the second fails with a
Conflict error; and secret keys, once unique across all rows, remain
unique after every registration. -/
theorem secret_key_unique_after_success (db db1 : List DeclaredUser)
    (d1 d2 : SecretKeyCreateSchema) (n1 n2 : Nat) (lg sk : String)
    (h1 : register_secret_key db d1 n1 = (.created lg sk, db1))
    (hv2 : validSecretKeyCreate d2 = true)
    (hsk : d2.secret_key = d1.secret_key)
    (hlg : d2.login ≠ d1.login) :
    (∃ detail, (register_secret_key db1 d2 n2).1 = .conflict detail) ∧
    ∀ dbx dx nx, secretKeysUnique dbx →
      secretKeysUnique (register_secret_key dbx dx nx).2 := by
  constructor
  · unfold register_secret_key at h1
    split_ifs at h1 with hva hlo hse
    · simp at h1
    · simp at h1
    · simp at h1
    · simp only [Prod.mk.injEq] at h1
      obtain ⟨-, hdb1⟩ := h1
      by_cases hlogin : (get_declared_user_by_login db1 d2.login).isSome
      · exact ⟨"login already registered",
          by simp [register_secret_key, hv2, hlogin]⟩
      · have hsec : (get_declared_user_by_secret db1 d2.secret_key).isSome := by
          subst hdb1
          unfold get_declared_user_by_secret
          rw [List.find?_isSome]
          refine ⟨⟨n1, d1.login, d1.password, d1.secret_key⟩, by simp, by simp [hsk]⟩
        exact ⟨"secret key already in use",
          by simp [register_secret_key, hv2, hlogin, hsec]⟩
  · intro dbx dx nx hu
    unfold register_secret_key
    split_ifs with hxa hxb hxc
    · exact hu
    · exact hu
    · exact hu
    · unfold secretKeysUnique at hu ⊢
      rw [List.map_append, List.nodup_append]
      refine ⟨hu, List.nodup_singleton _, ?_⟩
      intro a ha hb
      simp at hb
      subst hb
      have hnone : get_declared_user_by_secret dbx dx.secret_key = none := by
        cases hopt : get_declared_user_by_secret dbx dx.secret_key with
        | none => rfl
        | some x => rw [hopt] at hxc; simp at hxc
      unfold get_declared_user_by_secret at hnone
      have hall := List.find?_eq_none.mp hnone
      simp at ha
      obtain ⟨x, hx, hxe⟩ := ha
      have hxne := hall x hx
      simp [hxe] at hxne

/-- Witness for C7 (amended): after gabe registers with his secret key,
hana registering with the same key is answered with a Conflict, and
secret-key uniqueness is preserved by every registration. -/
theorem secret_key_unique_after_success_witness :
    (∃ detail,
      (register_secret_key [⟨1, "gabe", "secret1", "GABESECRET42"⟩]
          ⟨"hana", "secret2", "GABESECRET42"⟩ 2).1 = .conflict detail) ∧
    ∀ dbx dx nx, secretKeysUnique dbx →
      secretKeysUnique (register_secret_key dbx dx nx).2 :=
  secret_key_unique_after_success [] [⟨1, "gabe", "secret1", "GABESECRET42"⟩]
    ⟨"gabe", "secret1", "GABESECRET42"⟩ ⟨"hana", "secret2", "GABESECRET42"⟩
    1 2 "gabe" "GABESECRET42" rfl rfl rfl (by decide)

/-- C8: the version check succeeds — with the ok body carrying the
server's own API version — exactly when the submitted string equals the
configured expected version; otherwise it fails with the 426
UpgradeRequired error whose detail contains both the submitted and the
expected version strings. -/
theorem check_client_version_spec (cfg : VersionConfig) (v : String) :
    (check_client_version cfg v
        = .ok { status := "ok", message := "Client version is up to date.",
                server_api_version := cfg.api_service_version }
      ↔ v = cfg.expected_client_version) ∧
    (v ≠ cfg.expected_client_version →
      ∃ detail,
        check_client_version cfg v = .error (.http 426 detail) ∧
        (∃ pre post, detail = pre ++ v ++ post) ∧
        (∃ pre post, detail = pre ++ cfg.expected_client_version ++ post)) := by
  by_cases h : v = cfg.expected_client_version
  · subst h
    exact ⟨by simp [check_client_version], fun hne => absurd rfl hne⟩
  · have hbeq : (v == cfg.expected_client_version) = false := beq_eq_false_iff_ne.mpr h
    constructor
    · constructor
      · intro hok
        simp [check_client_version, hbeq] at hok
      · intro he
        exact absurd he h
    · intro _
      refine ⟨"Client version '" ++ v ++ "' is outdated. Expected version: '"
          ++ cfg.expected_client_version ++ "'. Please update the application.",
        by simp [check_client_version, hbeq], ?_, ?_⟩
      · exact ⟨"Client version '",
          "' is outdated. Expected version: '" ++ cfg.expected_client_version
            ++ "'. Please update the application.",
          by simp [String.append_assoc]⟩
      · exact ⟨"Client version '" ++ v ++ "' is outdated. Expected version: '",
          "'. Please update the application.",
          by simp [String.append_assoc]⟩

/-- Witness for C8: with the default configuration, submitting "1.0.3"
is acknowledged and submitting "0.9.9" is answered with the 426 whose
detail names both versions. -/
theorem check_client_version_spec_witness :
    check_client_version ⟨"1.0.3", "1.2.5"⟩ "1.0.3"
      = .ok { status := "ok", message := "Client version is up to date.",
              server_api_version := "1.2.5" } ∧
    ∃ detail,
      check_client_version ⟨"1.0.3", "1.2.5"⟩ "0.9.9" = .error (.http 426 detail) ∧
      (∃ pre post, detail = pre ++ "0.9.9" ++ post) ∧
      (∃ pre post, detail = pre ++ "1.0.3" ++ post) :=
  ⟨(check_client_version_spec ⟨"1.0.3", "1.2.5"⟩ "1.0.3").1.mpr rfl,
   (check_client_version_spec ⟨"1.0.3", "1.2.5"⟩ "0.9.9").2 (by decide)⟩

end CryptoTerminal
